import Mathlib

/-
  Verification of the Flask backend in app.py.

  The app keeps a single cached video URL in the file last_video.json,
  resolves the current video URL from a remote Google-Apps-Script endpoint
  with local-cache fallback, forwards event records to the same endpoint,
  and uploads videos to Cloudinary.

  The embedding is a shallow one: each handler becomes a pure function over
  an explicit model of its environment (remote endpoint outcome, cache-file
  state, filesystem-write outcome, logging-sink configuration/outcome), and
  effects (the cache file, POSTs to the sink, the Cloudinary call) become
  components of the returned value.
-/

namespace UniqueApp

/-- The fixed secret checked by log_action (line 104 of app.py). -/
def SECRET : String := "23E51A05C1"

/-- State of the local cache file last_video.json: absent (os.path.exists
    is false), present but unreadable (json.load raises), or present and
    holding a JSON object whose video_url key is the given value
    (none models a null or missing value). -/
inductive CacheFile
  | absent
  | unreadable
  | stored (video_url : Option String)
  deriving DecidableEq, Repr

/-- Outcome of the GET to GOOGLE_SCRIPT_URL in get_last_video: failure
    (network error, timeout, or a non-JSON body, all of which raise inside
    the try block) or success with a parsed JSON body whose video_url field
    is the given value (none models a missing or null field). -/
inductive RemoteResult
  | failure
  | success (video_url : Option String)
  deriving DecidableEq, Repr

/-- Python truthiness of the optional string data.get("video_url"):
    None and the empty string are falsy. -/
def pyTruthy : Option String → Bool
  | none => false
  | some s => !s.isEmpty

/-- The underlying filesystem write performed inside save_last_video
    (open + json.dump); it either replaces the file content or raises. -/
def writeVideoFile (writeOk : Bool) (url : Option String) : Except String CacheFile :=
  if writeOk then .ok (.stored url) else .error "storage error"

/-- save_last_video (app.py lines 31-37): try to write
    \x7b"video_url": url\x7d to last_video.json; any exception is caught
    and printed. The result is the new cache-file state together with the
    diagnostic lines printed; the Except layer records whether the function
    itself raises to its caller. -/
def save_last_video (writeOk : Bool) (fs : CacheFile) (url : Option String) :
    Except String (CacheFile × List String) :=
  match writeVideoFile writeOk url with
  | .ok fs2 => .ok (fs2, [])
  | .error e => .ok (fs, ["Failed to save last video: " ++ e])

/-- The cache-file state after a call to save_last_video (which never
    raises, so the caller only observes the state component). -/
def saveEffect (writeOk : Bool) (fs : CacheFile) (url : Option String) : CacheFile :=
  match save_last_video writeOk fs url with
  | .ok (fs2, _) => fs2
  | .error _ => fs

/-- The fallback read in get_last_video (app.py lines 53-60): if the file
    exists, try json.load and return data.get("video_url"); a read or parse
    failure is swallowed (bare except: pass) and None is returned; if the
    file does not exist, None is returned. -/
def readCache : CacheFile → Option String
  | .stored url => url
  | .unreadable => none
  | .absent => none

/-- get_last_video (app.py lines 40-60): GET the remote endpoint; if the
    body parses and its video_url is truthy, cache it locally and return it;
    otherwise (exception, or falsy/missing video_url) fall back to the local
    cache file. Returns the resolved URL and the resulting cache-file state. -/
def get_last_video (remote : RemoteResult) (writeOk : Bool) (fs : CacheFile) :
    Option String × CacheFile :=
  match remote with
  | .success u =>
      if pyTruthy u then (u, saveEffect writeOk fs u)
      else (readCache fs, fs)
  | .failure => (readCache fs, fs)

/-- Body of a POST to /log_action as seen through
    request.get_json(force=True): a JSON object with optional password and
    action string fields, or some other well-formed JSON value (array or
    scalar), on which data.get raises AttributeError; the string names the
    Python type of that value. -/
inductive JsonBody
  | obj (password action : Option String)
  | nonObj (typeName : String)
  deriving DecidableEq, Repr

/-- JSON response of log_action. -/
inductive LogResponse
  | ok (result : String)
  | error (msg : String)
  deriving DecidableEq, Repr

/-- Observable outcome of one log_action call: the JSON response, the
    fields of the payload it builds, and the number of POSTs attempted
    against the logging sink. -/
structure LogOut where
  response : LogResponse
  event : String
  password_attempt : String
  sinkPosts : Nat
  deriving DecidableEq, Repr

/-- log_action (app.py lines 94-126): parse the body; on a JSON object,
    compute password_attempt = data.get("password", ""), event =
    data.get("action", "password_attempt" if password_attempt else
    "unknown"), result = "success" if the password equals SECRET else
    "failed" if it is truthy else "clicked"; POST the payload to the sink if
    configured (a POST failure is caught by the inner try and only printed);
    return \x7b"status": "ok", "result": result\x7d. On a non-object body,
    data.get raises AttributeError before any POST, the outer except catches
    it, and \x7b"status": "error", "error": str(e)\x7d is returned. -/
def log_action (sinkConfigured sinkOk : Bool) (body : JsonBody) : LogOut :=
  match body with
  | .nonObj t =>
      ⟨.error (t ++ " object has no attribute get"), "", "", 0⟩
  | .obj password action =>
      let password_attempt := password.getD ""
      let event := action.getD
        (if !password_attempt.isEmpty then "password_attempt" else "unknown")
      let result :=
        if password_attempt == SECRET then "success"
        else if !password_attempt.isEmpty then "failed" else "clicked"
      let posts := if sinkConfigured then 1 else 0
      ⟨.ok result, event, password_attempt, posts⟩

/-- A request to /upload_story: either request.files has no "video" key,
    or it has one whose filename is the given string. -/
inductive UploadRequest
  | noVideoPart
  | withFile (filename : String)
  deriving DecidableEq, Repr

/-- Outcome of cloudinary.uploader.upload: it raises with a message, or
    returns a result object whose secure_url field is the given value
    (none models a missing field, so upload_result.get is None). -/
inductive CloudinaryResult
  | failure (msg : String)
  | success (secure_url : Option String)
  deriving DecidableEq, Repr

/-- JSON response of upload_story; ok carries the video_url value
    (none renders as JSON null). -/
inductive UploadResponse
  | ok (video_url : Option String)
  | error (msg : String)
  deriving DecidableEq, Repr

/-- Observable outcome of one upload_story call: the JSON response, the
    resulting cache-file state, whether the Cloudinary upload was attempted,
    and the number of POSTs attempted against the logging sink. -/
structure UploadOut where
  response : UploadResponse
  fs : CacheFile
  uploadAttempted : Bool
  sinkPosts : Nat
  deriving DecidableEq, Repr

/-- upload_story (app.py lines 132-180): reject a request with no "video"
    part, then one with an empty filename; otherwise upload to Cloudinary
    (a raised exception reaches the outer except and yields the error
    response); on success read secure_url from the result, cache it via
    save_last_video, POST a video_uploaded event to the sink if configured
    (failure caught by the inner try), and return
    \x7b"status": "ok", "video_url": video_url\x7d. -/
def upload_story (cloud : CloudinaryResult) (writeOk : Bool) (fs : CacheFile)
    (sinkConfigured sinkOk : Bool) (req : UploadRequest) : UploadOut :=
  match req with
  | .noVideoPart => ⟨.error "No video part", fs, false, 0⟩
  | .withFile fn =>
      if fn == "" then ⟨.error "No selected file", fs, false, 0⟩
      else
        match cloud with
        | .failure msg => ⟨.error msg, fs, true, 0⟩
        | .success u =>
            let fs2 := saveEffect writeOk fs u
            let posts := if sinkConfigured then 1 else 0
            ⟨.ok u, fs2, true, posts⟩

/-- Observable outcome of one request to the index page (app.py lines
    66-88): the video_url handed to the rendered template, the resulting
    cache-file state, and the number of POSTs attempted against the sink. -/
structure IndexOut where
  video_url : Option String
  fs : CacheFile
  sinkPosts : Nat
  deriving DecidableEq, Repr

/-- index (app.py lines 66-88): resolve the video URL via get_last_video,
    then POST a page_visit event to the sink if configured (any exception in
    that block is caught and printed), and render the page with the resolved
    URL. -/
def index (remote : RemoteResult) (writeOk : Bool) (fs : CacheFile)
    (sinkConfigured sinkOk : Bool) : IndexOut :=
  let r := get_last_video remote writeOk fs
  let posts := if sinkConfigured then 1 else 0
  ⟨r.1, r.2, posts⟩

/-!  Theorems settling the claims.  -/

/-- A non-empty string is not isEmpty. -/
theorem isEmpty_false_of_ne {s : String} (hs : s ≠ "") : s.isEmpty = false := by
  cases he : s.isEmpty
  · rfl
  · exact absurd ((String.isEmpty_iff s).mp he) hs

/-- The empty string is isEmpty. -/
theorem empty_isEmpty : ("" : String).isEmpty = true := by decide

/-- C1: when the remote GET succeeds and its JSON body carries a non-empty
    video_url s (and the local write is possible), get_last_video returns
    exactly s and overwrites the cache file with exactly s, regardless of
    any previously cached value — which is therefore neither consulted nor
    returned on this path. -/
theorem c1_remote_success_returns_and_caches (s : String) (fs : CacheFile)
    (hs : s ≠ "") :
    get_last_video (.success (some s)) true fs = (some s, .stored (some s)) := by
  have h : s.isEmpty = false := isEmpty_false_of_ne hs
  simp [get_last_video, pyTruthy, saveEffect, save_last_video, writeVideoFile, h]

/-- Witness for C1 at a concrete URL and a concrete prior cache state. -/
theorem c1_witness :
    get_last_video (.success (some "https://res.example/v1.mp4")) true
        (.stored (some "old")) =
      (some "https://res.example/v1.mp4", .stored (some "https://res.example/v1.mp4")) :=
  c1_remote_success_returns_and_caches "https://res.example/v1.mp4"
    (.stored (some "old")) (by decide)

/-- C2: when the remote fetch fails — an exception (network error, timeout,
    non-JSON body) or a body whose video_url is missing or empty —
    get_last_video returns the cached video_url if a readable cache file
    exists and none otherwise, and leaves the cache file unchanged. -/
theorem c2_remote_failure_falls_back (remote : RemoteResult) (writeOk : Bool)
    (fs : CacheFile)
    (hfail : remote = .failure ∨ ∃ u, remote = .success u ∧ pyTruthy u = false) :
    get_last_video remote writeOk fs = (readCache fs, fs) := by
  rcases hfail with h | ⟨u, h, hu⟩
  · subst h
    simp [get_last_video]
  · subst h
    simp [get_last_video, hu]

/-- Witness for C2: a failing remote with a populated cache. -/
theorem c2_witness :
    get_last_video .failure true (.stored (some "v")) = (some "v", .stored (some "v")) :=
  c2_remote_failure_falls_back .failure true (.stored (some "v")) (Or.inl rfl)

/-- C3 counterexample: the body \x7b"password": ""\x7d supplies a password
    field that does not match the secret, yet log_action answers result
    "clicked", not "failed" — the claim's "supplied and does not match
    implies failed" fails for the supplied empty password. -/
theorem c3_counterexample :
    (some "" ≠ (none : Option String)) ∧ ("" : String) ≠ SECRET ∧
      (log_action true true (.obj (some "") none)).response = .ok "clicked" ∧
      LogResponse.ok "clicked" ≠ .ok "failed" := by
  refine ⟨by decide, by decide, ?_, by decide⟩
  rfl

/-- C3 amended: for every JSON-object body, log_action responds with status
    ok and result "success" when the password equals the fixed secret,
    "clicked" when the password field is absent or empty, and "failed" for
    any other supplied password. -/
theorem c3_amended_log_action_result (pw act : Option String)
    (sinkConfigured sinkOk : Bool) :
    (log_action sinkConfigured sinkOk (.obj pw act)).response =
      .ok (if pw = some SECRET then "success"
           else if pw = none ∨ pw = some "" then "clicked" else "failed") := by
  rcases pw with _ | s
  · simp [log_action, SECRET, empty_isEmpty]
  · by_cases h1 : s = SECRET
    · subst h1
      simp [log_action, SECRET]
    · by_cases h2 : s = ""
      · subst h2
        simp [log_action, SECRET, empty_isEmpty]
      · have he : s.isEmpty = false := isEmpty_false_of_ne h2
        have hb : (s == SECRET) = false := by
          simpa [beq_iff_eq] using h1
        simp [log_action, hb, he, h1, h2]

/-- C4: an upload request with no "video" part is answered with the exact
    error "No video part", and one with an empty filename with the exact
    error "No selected file"; in both cases the cache is untouched and no
    Cloudinary upload is attempted. -/
theorem c4_upload_validation (cloud : CloudinaryResult) (writeOk : Bool)
    (fs : CacheFile) (sinkConfigured sinkOk : Bool) :
    upload_story cloud writeOk fs sinkConfigured sinkOk .noVideoPart =
        ⟨.error "No video part", fs, false, 0⟩ ∧
      upload_story cloud writeOk fs sinkConfigured sinkOk (.withFile "") =
        ⟨.error "No selected file", fs, false, 0⟩ := by
  constructor <;> rfl

/-- C5: a valid upload whose Cloudinary call succeeds with a non-empty
    secure_url u (the local write being possible) is answered with status ok
    and video_url = u, u is written to the cache file, and a later
    get_last_video with the remote unreachable returns u from the cache. -/
theorem c5_upload_success_roundtrip (fn u : String) (fs : CacheFile)
    (sinkConfigured sinkOk : Bool) (hfn : fn ≠ "") (hu : u ≠ "") :
    (upload_story (.success (some u)) true fs sinkConfigured sinkOk
          (.withFile fn)).response = .ok (some u) ∧
      (upload_story (.success (some u)) true fs sinkConfigured sinkOk
          (.withFile fn)).fs = .stored (some u) ∧
      ∀ w2 : Bool,
        (get_last_video .failure w2
            (upload_story (.success (some u)) true fs sinkConfigured sinkOk
              (.withFile fn)).fs).1 = some u := by
  have hb : (fn == "") = false := by
    simpa [beq_iff_eq] using hfn
  refine ⟨?_, ?_, ?_⟩ <;>
    simp [upload_story, hb, saveEffect, save_last_video, writeVideoFile,
      get_last_video, readCache]

/-- Witness for C5 at a concrete filename and provider URL. -/
theorem c5_witness :
    (upload_story (.success (some "https://res.example/s.mp4")) true .absent
          true true (.withFile "s.mp4")).response =
        .ok (some "https://res.example/s.mp4") ∧
      (upload_story (.success (some "https://res.example/s.mp4")) true .absent
          true true (.withFile "s.mp4")).fs =
        .stored (some "https://res.example/s.mp4") ∧
      ∀ w2 : Bool,
        (get_last_video .failure w2
            (upload_story (.success (some "https://res.example/s.mp4")) true
              .absent true true (.withFile "s.mp4")).fs).1 =
          some "https://res.example/s.mp4" :=
  c5_upload_success_roundtrip "s.mp4" "https://res.example/s.mp4" .absent
    true true (by decide) (by decide)

/-- C6: the primary response of each handler does not depend on the
    logging sink: whether the sink is configured and whether its POST
    succeeds, the index page renders the same video_url, log_action returns
    the same response, and upload_story returns the same response. -/
theorem c6_sink_failure_is_invisible (remote : RemoteResult) (writeOk : Bool)
    (fs : CacheFile) (body : JsonBody) (cloud : CloudinaryResult)
    (req : UploadRequest) (cfg1 ok1 cfg2 ok2 : Bool) :
    (index remote writeOk fs cfg1 ok1).video_url =
        (index remote writeOk fs cfg2 ok2).video_url ∧
      (log_action cfg1 ok1 body).response = (log_action cfg2 ok2 body).response ∧
      (upload_story cloud writeOk fs cfg1 ok1 req).response =
        (upload_story cloud writeOk fs cfg2 ok2 req).response := by
  refine ⟨rfl, ?_, ?_⟩
  · cases body <;> rfl
  · cases req with
    | noVideoPart => rfl
    | withFile fn =>
        by_cases h : fn == ""
        · simp [upload_story, h]
        · cases cloud <;> simp [upload_story, h]

/-- C7: with the remote unreachable both times and the cache unchanged in
    between, two successive get_last_video calls return the same value (the
    first call also leaves the cache unchanged, so its output state feeds
    the second call directly). -/
theorem c7_fallback_idempotent (w1 w2 : Bool) (fs : CacheFile) :
    get_last_video .failure w2 (get_last_video .failure w1 fs).2 =
      get_last_video .failure w1 fs := by
  simp [get_last_video]

/-- C8: save_last_video returns normally for every URL and every outcome of
    the underlying write; when the write fails, the cache is left as it was
    and the failure appears only as a printed diagnostic. -/
theorem c8_save_never_raises (writeOk : Bool) (fs : CacheFile)
    (url : Option String) :
    ∃ fs2 diags, save_last_video writeOk fs url = .ok (fs2, diags) ∧
      (writeOk = false → fs2 = fs ∧ diags ≠ []) := by
  cases writeOk
  · exact ⟨fs, ["Failed to save last video: " ++ "storage error"], rfl,
      fun _ => ⟨rfl, by simp⟩⟩
  · exact ⟨.stored url, [], rfl, fun h => by cases h⟩

/-- C9: when the Cloudinary call succeeds but its result has no secure_url,
    upload_story still answers status ok with a null video_url, and that
    null value is written to the cache file. -/
theorem c9_missing_secure_url (fn : String) (fs : CacheFile)
    (sinkConfigured sinkOk : Bool) (hfn : fn ≠ "") :
    (upload_story (.success none) true fs sinkConfigured sinkOk
          (.withFile fn)).response = .ok none ∧
      (upload_story (.success none) true fs sinkConfigured sinkOk
          (.withFile fn)).fs = .stored none := by
  have hb : (fn == "") = false := by
    simpa [beq_iff_eq] using hfn
  constructor <;>
    simp [upload_story, hb, saveEffect, save_last_video, writeVideoFile]

/-- Witness for C9 at a concrete filename. -/
theorem c9_witness :
    (upload_story (.success none) true .absent true true
          (.withFile "s.mp4")).response = .ok none ∧
      (upload_story (.success none) true .absent true true
          (.withFile "s.mp4")).fs = .stored none :=
  c9_missing_secure_url "s.mp4" .absent true true (by decide)

/-- C10: a well-formed JSON body that is not an object makes log_action
    answer status error (never status ok), and no event is posted to the
    logging sink. -/
theorem c10_non_object_body (t : String) (sinkConfigured sinkOk : Bool) :
    (∃ msg, (log_action sinkConfigured sinkOk (.nonObj t)).response = .error msg) ∧
      (∀ r, (log_action sinkConfigured sinkOk (.nonObj t)).response ≠ .ok r) ∧
      (log_action sinkConfigured sinkOk (.nonObj t)).sinkPosts = 0 := by
  refine ⟨⟨t ++ " object has no attribute get", rfl⟩, ?_, rfl⟩
  intro r h
  simp [log_action] at h

end UniqueApp
